import Mathlib

/-!
Shallow embedding of `src/lab_orchestrator_lib_auth/auth.py` from
LabOrchestratorLib-Auth, together with proofs about its behaviour.

The Python module wraps the PyJWT library (HS256 path only).  The embedding
models:

* JSON payload values (`Json`), with numbers as `Int` (time is modelled in
  whole Unix seconds; the ids and expiry instants used by the module are
  integral);
* Python exception outcomes (`PyErr`);
* the `jwt.encode` output as a structured `Token` (payload plus the key the
  signature was made with), with `Token.serialize` giving the compact
  three-segment string form; the HMAC-SHA-256 digest is idealized: signature
  verification succeeds exactly when the verifying key equals the signing
  key (`hs256digest` is a concrete stand-in whose bits nothing depends on);
* `jwt.decode` as `jwtDecode` over `TokenInput`, where the constructor
  `TokenInput.malformed` stands for every input string that is not
  structurally a valid signed JWS payload (PyJWT raises `DecodeError` for
  those), and `TokenInput.token` carries a structurally valid signed token.
  PyJWT checks, in order: the signature (`InvalidSignatureError`), that the
  payload is a JSON object (`DecodeError`), and the registered `exp` claim
  (`ExpiredSignatureError` when `exp <= now`; a missing `exp` is accepted).

Wall-clock time (`time.time()` at encode, PyJWT's internal clock read at
decode) is passed as an explicit `now : Int` argument; it is the only
ambient input of the Python functions, which touch no other state.
-/

/-- JSON values, as carried by a JWT payload. Numbers are modelled as `Int`:
every numeric value this module puts into or reads from a payload (ids and
the `exp` timestamp, taken in whole Unix seconds) is integral. -/
inductive Json where
  | null : Json
  | bool (b : Bool) : Json
  | num (n : Int) : Json
  | str (s : String) : Json
  | arr (xs : List Json) : Json
  | obj (kvs : List (String × Json)) : Json

/-- Python exception outcomes reachable from this module.  The first three
are PyJWT's `jwt.exceptions` classes; the spec's error taxonomy names them
`TokenMalformed`, `SignatureInvalid` and `TokenExpired` respectively.
`KeyError` and `TypeError` are Python built-in faults raised by the
module's own dictionary indexing (`data['lab_instance']` etc.); they are
not JWT errors.  `UntypedValue` marks a payload value that falls outside
the type annotations of `LabInstanceTokenParams`: Python's dataclass would
store such a value untyped, so this constructor is a boundary of the typed
embedding, not a Python exception; no claim in scope involves such
payloads. -/
inductive PyErr where
  | DecodeError : PyErr
  | InvalidSignatureError : PyErr
  | ExpiredSignatureError : PyErr
  | KeyError (k : String) : PyErr
  | TypeError : PyErr
  | UntypedValue : PyErr
deriving DecidableEq

/-- `Identifier = Union[str, int]` from the source. -/
inductive Identifier where
  | str (s : String) : Identifier
  | int (n : Int) : Identifier
deriving DecidableEq

/-- How an `Identifier` appears as a JSON payload value. -/
def Identifier.toJson : Identifier → Json
  | .str s => Json.str s
  | .int n => Json.num n

/-- The `LabInstanceTokenParams` dataclass: the data inserted into the JWT
token, with the source's type annotations. -/
structure LabInstanceTokenParams where
  lab_id : Identifier
  lab_instance_id : Identifier
  namespace_name : String
  allowed_vmi_names : List String
deriving DecidableEq

/-- A structurally valid signed JWS token, as produced by `jwt.encode`:
its payload and the key its signature was made with.  Signature
verification is idealized as key equality (a forged HMAC collision is
outside the model). -/
structure Token where
  payload : Json
  sigKey : String

/-- Input to `jwt.decode`: either a structurally valid signed token, or any
string that is not one (wrong segment count, bad base64, bad JSON, ...),
which PyJWT rejects with `DecodeError` while parsing. -/
inductive TokenInput where
  | token (t : Token) : TokenInput
  | malformed (s : String) : TokenInput

/-- The expiry instant `generate_auth_token` binds into the token:
Python's `if not expires_at: expires_at = time.time() + expires_in` tests
the truthiness of `Optional[int]`, so both `None` and `0` fall through to
`now + expires_in`. -/
def resolvedExpiry (now : Int) (expires_in : Int) (expires_at : Option Int) : Int :=
  match expires_at with
  | none => now + expires_in
  | some e => if e = 0 then now + expires_in else e

/-- `generate_auth_token` from the source: builds the payload
`{id, exp, lab_instance {lab_id, lab_instance_id, namespace_name,
allowed_vmi_names}}` and signs it with `secret_key` (HS256).  `now` is the
`time.time()` reading, in whole seconds. -/
def generate_auth_token (user_id : Identifier) (lab_instance_token_params : LabInstanceTokenParams)
    (secret_key : String) (expires_in : Int := 600) (expires_at : Option Int := none)
    (now : Int) : Token :=
  { payload := Json.obj
      [("id", user_id.toJson),
       ("exp", Json.num (resolvedExpiry now expires_in expires_at)),
       ("lab_instance", Json.obj
         [("lab_id", lab_instance_token_params.lab_id.toJson),
          ("lab_instance_id", lab_instance_token_params.lab_instance_id.toJson),
          ("namespace_name", Json.str lab_instance_token_params.namespace_name),
          ("allowed_vmi_names", Json.arr (lab_instance_token_params.allowed_vmi_names.map Json.str))])],
    sigKey := secret_key }

/-- `jwt.decode(token, secret_key, algorithms=['HS256'])`, as the source
calls it.  PyJWT's order of checks: structural parse (already folded into
`TokenInput.malformed`), signature, payload-must-be-a-JSON-object, then the
`exp` claim: expired when `exp <= now` (leeway 0); a payload without `exp`
is accepted; a non-numeric `exp` is a `DecodeError`. -/
def jwtDecode (t : TokenInput) (key : String) (now : Int) : Except PyErr Json :=
  match t with
  | .malformed _ => .error .DecodeError
  | .token tok =>
    if tok.sigKey = key then
      match tok.payload with
      | .obj kvs =>
        match List.lookup "exp" kvs with
        | some (.num e) => if e ≤ now then .error .ExpiredSignatureError else .ok (.obj kvs)
        | some _ => .error .DecodeError
        | none => .ok (.obj kvs)
      | _ => .error .DecodeError
    else .error .InvalidSignatureError

/-- Python subscription `j[k]`: on a dict, the value at `k` or a `KeyError`;
on any non-dict payload value, a `TypeError`. -/
def getItem (j : Json) (k : String) : Except PyErr Json :=
  match j with
  | .obj kvs =>
    match List.lookup k kvs with
    | some v => .ok v
    | none => .error (.KeyError k)
  | _ => .error .TypeError

/-- Reading a payload value at type `Identifier` (annotation
`Union[str, int]`).  Values outside the annotation would be stored untyped
by Python; the embedding marks them `UntypedValue`. -/
def asIdentifier (j : Json) : Except PyErr Identifier :=
  match j with
  | .str s => .ok (Identifier.str s)
  | .num n => .ok (Identifier.int n)
  | _ => .error .UntypedValue

/-- Reading a payload value at type `str`. -/
def asString (j : Json) : Except PyErr String :=
  match j with
  | .str s => .ok s
  | _ => .error .UntypedValue

/-- Reading a list of payload values at type `List[str]`, element by
element. -/
def asStringListAux : List Json → Except PyErr (List String)
  | [] => .ok []
  | x :: xs => do
    let s ← asString x
    let rest ← asStringListAux xs
    .ok (s :: rest)

/-- Reading a payload value at type `List[str]`. -/
def asStringList (j : Json) : Except PyErr (List String) :=
  match j with
  | .arr xs => asStringListAux xs
  | _ => .error .UntypedValue

/-- `decode_auth_token` from the source: runs `jwt.decode`, then rebuilds a
`LabInstanceTokenParams` by indexing `data['lab_instance'][...]` in the
source's constructor-argument order.  A missing key raises `KeyError`, a
non-dict `lab_instance` raises `TypeError`; neither is caught.  The decoded
value contains only the four `lab_instance` fields: the payload's `id`
(subject) is not returned. -/
def decode_auth_token (token : TokenInput) (secret_key : String) (now : Int) :
    Except PyErr LabInstanceTokenParams := do
  let data ← jwtDecode token secret_key now
  let li ← getItem data "lab_instance"
  let labIdJ ← getItem li "lab_id"
  let labInstanceIdJ ← getItem li "lab_instance_id"
  let namespaceNameJ ← getItem li "namespace_name"
  let allowedVmiNamesJ ← getItem li "allowed_vmi_names"
  let lab_id ← asIdentifier labIdJ
  let lab_instance_id ← asIdentifier labInstanceIdJ
  let namespace_name ← asString namespaceNameJ
  let allowed_vmi_names ← asStringList allowedVmiNamesJ
  return { lab_id := lab_id, lab_instance_id := lab_instance_id,
           namespace_name := namespace_name, allowed_vmi_names := allowed_vmi_names }

/-- `verify_auth_token` from the source: decodes (letting every decode
failure propagate) and checks `vmi_name not in data.allowed_vmi_names`
(Python `in` on a list of strings: exact, case-sensitive membership). -/
def verify_auth_token (token : TokenInput) (vmi_name : String) (secret_key : String)
    (now : Int) : Except PyErr (Bool × LabInstanceTokenParams) := do
  let data ← decode_auth_token token secret_key now
  let is_forbidden := !(data.allowed_vmi_names.contains vmi_name)
  return (!is_forbidden, data)

/-- The `exp` claim a token's payload carries, when it is a numeric field of
a JSON-object payload. -/
def Token.expClaim (t : Token) : Option Int :=
  match t.payload with
  | .obj kvs =>
    match List.lookup "exp" kvs with
    | some (.num e) => some e
    | _ => none
  | _ => none

/-- UTF-8 encoding of one character as byte values. -/
def utf8CharBytes (c : Char) : List Nat :=
  let n := c.toNat
  if n < 128 then [n]
  else if n < 2048 then [192 + n / 64, 128 + n % 64]
  else if n < 65536 then [224 + n / 4096, 128 + n / 64 % 64, 128 + n % 64]
  else [240 + n / 262144, 128 + n / 4096 % 64, 128 + n / 64 % 64, 128 + n % 64]

/-- UTF-8 byte values of a string. -/
def strBytes (s : String) : List Nat :=
  s.data.foldr (fun c acc => utf8CharBytes c ++ acc) []

/-- JSON string escaping for one character (quote and backslash; the exact
escaping of the remaining characters is irrelevant to every claim in
scope). -/
def escapeChar (c : Char) : List Char :=
  if c = '\x22' then ['\\', '\x22']
  else if c = '\\' then ['\\', '\\']
  else [c]

/-- JSON string escaping. -/
def escapeString (s : String) : String :=
  String.mk (s.data.foldr (fun c acc => escapeChar c ++ acc) [])

mutual

/-- Compact JSON serialization, as `json.dumps(..., separators=(",", ":"))`
produces for PyJWT. -/
def jsonDumps : Json → String
  | .null => "null"
  | .bool true => "true"
  | .bool false => "false"
  | .num n => toString n
  | .str s => "\x22" ++ escapeString s ++ "\x22"
  | .arr xs => "[" ++ jsonDumpsList xs ++ "]"
  | .obj kvs => "\x7b" ++ jsonDumpsPairs kvs ++ "\x7d"

/-- Comma-separated serialization of array elements. -/
def jsonDumpsList : List Json → String
  | [] => ""
  | [x] => jsonDumps x
  | x :: y :: rest => jsonDumps x ++ "," ++ jsonDumpsList (y :: rest)

/-- Comma-separated serialization of object members. -/
def jsonDumpsPairs : List (String × Json) → String
  | [] => ""
  | [(k, v)] => "\x22" ++ escapeString k ++ "\x22:" ++ jsonDumps v
  | (k, v) :: p :: rest =>
    "\x22" ++ escapeString k ++ "\x22:" ++ jsonDumps v ++ "," ++ jsonDumpsPairs (p :: rest)

end

/-- The base64url alphabet (RFC 4648 §5), as PyJWT's `base64url_encode`
uses it; padding is stripped. -/
def b64Alphabet : List Char :=
  "ABCDEFGHIJKLMNOPQRSTUVWXYZabcdefghijklmnopqrstuvwxyz0123456789-_".data

/-- The base64url character for a 6-bit value. -/
def b64char (n : Nat) : Char :=
  b64Alphabet.getD (n % 64) 'A'

/-- Unpadded base64url encoding of a byte sequence, three bytes to four
characters. -/
def b64urlEncode : List Nat → List Char
  | [] => []
  | [a] => [b64char (a / 4), b64char (a % 4 * 16)]
  | [a, b] => [b64char (a / 4), b64char (a % 4 * 16 + b / 16), b64char (b % 16 * 4)]
  | a :: b :: c :: rest =>
    b64char (a / 4) :: b64char (a % 4 * 16 + b / 16) ::
      b64char (b % 16 * 4 + c / 64) :: b64char (c % 64) :: b64urlEncode rest

/-- Idealized stand-in for the HMAC-SHA-256 digest (32 bytes over the
signing input and key).  No claim in scope depends on the digest bits,
only on the token structure and on signature validity, which the model
expresses as key equality in `jwtDecode`. -/
def hs256digest (key : String) (input : List Nat) : List Nat :=
  (List.range 32).map fun i =>
    (strBytes key ++ input).foldl (fun a b => (a * 31 + b + 7) % 256) (i % 256)

/-- The JOSE header this module always signs with:
`jwt.encode(..., algorithm='HS256')`. -/
def headerJson : Json :=
  Json.obj [("typ", Json.str "JWT"), ("alg", Json.str "HS256")]

/-- The compact serialization `jwt.encode` returns:
`base64url(header) "." base64url(payload) "." base64url(signature)`. -/
def Token.serialize (t : Token) : String :=
  let h := String.mk (b64urlEncode (strBytes (jsonDumps headerJson)))
  let p := String.mk (b64urlEncode (strBytes (jsonDumps t.payload)))
  let s := String.mk (b64urlEncode (hs256digest t.sigKey (strBytes (h ++ "." ++ p))))
  h ++ "." ++ p ++ "." ++ s

/-! ## Helper lemmas -/

/-- Reading back a list of JSON strings at annotation `List[str]` recovers
the original strings. -/
theorem asStringListAux_map (l : List String) :
    asStringListAux (l.map Json.str) = .ok l := by
  induction l with
  | nil => rfl
  | cons x xs ih => simp [asStringListAux, asString, ih, Bind.bind, Except.bind]

/-- Decoding a generated token with the signing key, at any instant before
the resolved expiry, recovers the four `lab_instance` fields. -/
theorem decode_generate_ok (u : Identifier) (p : LabInstanceTokenParams) (key : String)
    (ei : Int) (ea : Option Int) (now1 now2 : Int)
    (h : now2 < resolvedExpiry now1 ei ea) :
    decode_auth_token (.token (generate_auth_token u p key ei ea now1)) key now2 = .ok p := by
  obtain ⟨lid, liid, ns, names⟩ := p
  cases lid <;> cases liid <;>
    simp [decode_auth_token, generate_auth_token, jwtDecode, getItem, asIdentifier, asString,
      asStringList, asStringListAux_map, Identifier.toJson, List.lookup,
      Bind.bind, Except.bind, Pure.pure, Except.pure, not_le.mpr h]

/-- Every base64url character comes from the 64-character alphabet, which
does not contain a dot. -/
theorem b64char_ne_dot (n : Nat) : b64char n ≠ '.' := by
  have h : n % 64 < 64 := Nat.mod_lt _ (by norm_num)
  have key : ∀ k, k < 64 → b64Alphabet.getD k 'A' ≠ '.' := by decide
  exact key _ h

/-- No character of a base64url encoding is a dot. -/
theorem b64urlEncode_ne_dot : ∀ (l : List Nat), ∀ c ∈ b64urlEncode l, c ≠ '.'
  | [] => by simp [b64urlEncode]
  | [a] => by
    intro c hc
    simp [b64urlEncode] at hc
    rcases hc with rfl | rfl <;> exact b64char_ne_dot _
  | [a, b] => by
    intro c hc
    simp [b64urlEncode] at hc
    rcases hc with rfl | rfl | rfl <;> exact b64char_ne_dot _
  | a :: b :: c :: rest => by
    intro d hd
    simp [b64urlEncode] at hd
    rcases hd with rfl | rfl | rfl | rfl | hmem
    · exact b64char_ne_dot _
    · exact b64char_ne_dot _
    · exact b64char_ne_dot _
    · exact b64char_ne_dot _
    · exact b64urlEncode_ne_dot rest d hmem

/-- A base64url segment, as a string, contains no dot. -/
theorem mkB64_no_dot (l : List Nat) : '.' ∉ (String.mk (b64urlEncode l)).data :=
  fun hmem => b64urlEncode_ne_dot l '.' hmem rfl

/-- The `exp` claim of a generated token is the resolved expiry instant. -/
theorem expClaim_generate (u : Identifier) (p : LabInstanceTokenParams) (key : String)
    (ei : Int) (ea : Option Int) (now : Int) :
    (generate_auth_token u p key ei ea now).expClaim = some (resolvedExpiry now ei ea) := by
  simp [generate_auth_token, Token.expClaim, List.lookup]

/-- The example claim data of the spec's §8 scenario, used as concrete
input by witnesses and counterexamples. -/
def exampleParams : LabInstanceTokenParams :=
  { lab_id := Identifier.int 42, lab_instance_id := Identifier.int 7,
    namespace_name := "ns-a", allowed_vmi_names := ["vm-1", "vm-2"] }

/-! ## Claims -/

/-- C1 (counterexample): the claim requires decode to return a ClaimSet
equal to `C` on all five fields, the subject id included.  But
`decode_auth_token` returns only the four `lab_instance` fields: its
result is identical for two tokens generated from distinct subjects
`"u1"` and `"u2"`, so it cannot agree with both subjects, refuting the
five-field round-trip at this concrete input. -/
theorem c1_counterexample_subject_not_roundtripped :
    decode_auth_token (.token (generate_auth_token (.str "u1") exampleParams "k" 600 none 0)) "k" 100
      = decode_auth_token (.token (generate_auth_token (.str "u2") exampleParams "k" 600 none 0)) "k" 100
    ∧ decode_auth_token (.token (generate_auth_token (.str "u1") exampleParams "k" 600 none 0)) "k" 100
      = .ok exampleParams
    ∧ Identifier.str "u1" ≠ Identifier.str "u2" := by
  refine ⟨rfl, rfl, by decide⟩

/-- C1 (amended): decoding the token produced by
`generate_auth_token(subject, C, K)` with the same key `K`, at any instant
before the token's expiry, returns the four lab-instance fields of `C`
exactly (lab id, lab instance id, namespace, allowed resources); the
subject id is bound into the token's payload but is not part of decode's
result. -/
theorem c1_roundtrip_lab_instance_fields (u : Identifier) (p : LabInstanceTokenParams)
    (key : String) (ei : Int) (ea : Option Int) (now1 now2 : Int)
    (h : now2 < resolvedExpiry now1 ei ea) :
    decode_auth_token (.token (generate_auth_token u p key ei ea now1)) key now2 = .ok p :=
  decode_generate_ok u p key ei ea now1 now2 h

/-- C1 witness: the amended round-trip at the spec's example data, decoded
100 seconds after issuance with the default 600-second ttl. -/
theorem c1_roundtrip_lab_instance_fields_witness :
    decode_auth_token (.token (generate_auth_token (.str "u1") exampleParams "k" 600 none 0)) "k" 100
      = .ok exampleParams :=
  c1_roundtrip_lab_instance_fields (.str "u1") exampleParams "k" 600 none 0 100 (by decide)

/-- C2: whenever decode succeeds with claims `C`, verify returns
`(true, C)` iff the requested name is an exact, case-sensitive member of
`C.allowed_vmi_names`, and `(false, C)` otherwise, never an error; with an
empty allowed list the boolean is false for every name. -/
theorem c2_verify_membership (t : TokenInput) (key : String) (now : Int) (n : String)
    (C : LabInstanceTokenParams) (h : decode_auth_token t key now = .ok C) :
    verify_auth_token t n key now = .ok (decide (n ∈ C.allowed_vmi_names), C) := by
  simp [verify_auth_token, h, Bind.bind, Except.bind, Pure.pure, Except.pure, List.contains]

/-- C2 witness: on the spec's example token, `vm-1` is authorized and the
call does not error. -/
theorem c2_verify_membership_witness :
    verify_auth_token (.token (generate_auth_token (.str "u1") exampleParams "k" 600 none 0))
        "vm-1" "k" 100
      = .ok (decide ("vm-1" ∈ exampleParams.allowed_vmi_names), exampleParams)
    ∧ decide ("vm-1" ∈ exampleParams.allowed_vmi_names) = true :=
  ⟨c2_verify_membership _ "k" 100 "vm-1" exampleParams rfl, by decide⟩

/-- C3 (counterexample): encoding with `expires_at = 0` supplied (and
`expires_in = 600`, at clock 1000) binds expiry `1600 = now + ttl` into
the token, not the supplied absolute expiry `0`, refuting precedence of a
supplied absolute expiry for the value 0. -/
theorem c3_counterexample_zero_expiry :
    (generate_auth_token (.str "u1") exampleParams "k" 600 (some 0) 1000).expClaim = some 1600
    ∧ some (1600 : Int) ≠ some (0 : Int) := by
  refine ⟨rfl, by decide⟩

/-- C3 (amended): the expiry instant bound into the token is the supplied
absolute expiry whenever one is supplied and nonzero — taking precedence
over `expires_in` — and `now + expires_in` when the absolute expiry is
absent or 0. -/
theorem c3_expiry_precedence_amended (u : Identifier) (p : LabInstanceTokenParams)
    (key : String) (ei : Int) (ea : Option Int) (now : Int) :
    (∀ e : Int, ea = some e → e ≠ 0 →
      (generate_auth_token u p key ei ea now).expClaim = some e)
    ∧ (ea = none ∨ ea = some 0 →
      (generate_auth_token u p key ei ea now).expClaim = some (now + ei)) := by
  constructor
  · rintro e rfl he
    simp [expClaim_generate, resolvedExpiry, he]
  · rintro (rfl | rfl) <;> simp [expClaim_generate, resolvedExpiry]

/-- C3 witness: a supplied nonzero absolute expiry 5 wins over the ttl; an
absent absolute expiry yields clock 1000 plus ttl 600. -/
theorem c3_expiry_precedence_amended_witness :
    (generate_auth_token (.str "u1") exampleParams "k" 600 (some 5) 1000).expClaim = some 5
    ∧ (generate_auth_token (.str "u1") exampleParams "k" 600 none 1000).expClaim = some 1600 :=
  ⟨(c3_expiry_precedence_amended (.str "u1") exampleParams "k" 600 (some 5) 1000).1 5 rfl
      (by decide),
    (c3_expiry_precedence_amended (.str "u1") exampleParams "k" 600 none 1000).2 (Or.inl rfl)⟩

/-- C4: decoding a token generated under key `k1` with a different key
`k2` fails with `InvalidSignatureError` (the spec's `SignatureInvalid`),
whatever the expiry parameters and clock readings. -/
theorem c4_wrong_key_signature_invalid (u : Identifier) (p : LabInstanceTokenParams)
    (k1 k2 : String) (ei : Int) (ea : Option Int) (now1 now2 : Int) (h : k1 ≠ k2) :
    decode_auth_token (.token (generate_auth_token u p k1 ei ea now1)) k2 now2
      = .error .InvalidSignatureError := by
  simp [decode_auth_token, generate_auth_token, jwtDecode, h, Bind.bind, Except.bind]

/-- C4 witness: keys `k1` and `k2` at the example data. -/
theorem c4_wrong_key_signature_invalid_witness :
    decode_auth_token (.token (generate_auth_token (.str "u1") exampleParams "k1" 600 none 0))
        "k2" 0
      = .error .InvalidSignatureError :=
  c4_wrong_key_signature_invalid (.str "u1") exampleParams "k1" "k2" 600 none 0 0 (by decide)

/-- C5: for a token generated with a (nonzero) absolute expiry `e`, decode
with the signing key fails with `ExpiredSignatureError` (the spec's
`TokenExpired`) when `e` is before the current time, and succeeds when `e`
is in the future. -/
theorem c5_expiry_boundary (u : Identifier) (p : LabInstanceTokenParams) (key : String)
    (ei : Int) (e : Int) (now0 now : Int) (he : e ≠ 0) :
    (e < now →
      decode_auth_token (.token (generate_auth_token u p key ei (some e) now0)) key now
        = .error .ExpiredSignatureError)
    ∧ (now < e →
      decode_auth_token (.token (generate_auth_token u p key ei (some e) now0)) key now
        = .ok p) := by
  constructor
  · intro hlt
    simp [decode_auth_token, generate_auth_token, jwtDecode, resolvedExpiry, he,
      Bind.bind, Except.bind, List.lookup, le_of_lt hlt]
  · intro hlt
    refine decode_generate_ok u p key ei (some e) now0 now ?_
    simpa [resolvedExpiry, he] using hlt

/-- C5 witness: at clock 1000, absolute expiry 999 (= now - 1) fails with
`ExpiredSignatureError` and absolute expiry 4600 (= now + 3600)
succeeds. -/
theorem c5_expiry_boundary_witness :
    decode_auth_token
        (.token (generate_auth_token (.str "u1") exampleParams "k" 600 (some 999) 0)) "k" 1000
      = .error .ExpiredSignatureError
    ∧ decode_auth_token
        (.token (generate_auth_token (.str "u1") exampleParams "k" 600 (some 4600) 0)) "k" 1000
      = .ok exampleParams :=
  ⟨(c5_expiry_boundary (.str "u1") exampleParams "k" 600 999 0 1000 (by decide)).1 (by decide),
    (c5_expiry_boundary (.str "u1") exampleParams "k" 600 4600 0 1000 (by decide)).2 (by decide)⟩

/-- C6 (counterexample): a correctly signed, unexpired token whose payload
object lacks the required `lab_instance` field makes decode raise
`KeyError 'lab_instance'` — an unhandled Python fault — which is not the
`DecodeError` the spec's `TokenMalformed` names. -/
theorem c6_counterexample_missing_field_keyerror :
    decode_auth_token (.token ⟨Json.obj [("id", .num 1), ("exp", .num 99)], "k"⟩) "k" 0
      = .error (.KeyError "lab_instance")
    ∧ PyErr.KeyError "lab_instance" ≠ PyErr.DecodeError := by
  refine ⟨rfl, by decide⟩

/-- C6 (amended): every input that is not structurally a valid signed
payload fails decode with `DecodeError` (the spec's `TokenMalformed`); but
a correctly signed, unexpired token whose payload object is missing the
required `lab_instance` field fails with `KeyError 'lab_instance'`, an
unhandled fault, not with `TokenMalformed`. -/
theorem c6_malformed_and_missing_field_amended (s : String) (kvs : List (String × Json))
    (key : String) (now e : Int)
    (h1 : List.lookup "lab_instance" kvs = none)
    (h2 : List.lookup "exp" kvs = some (Json.num e)) (h3 : now < e) :
    decode_auth_token (.malformed s) key now = .error .DecodeError
    ∧ decode_auth_token (.token ⟨Json.obj kvs, key⟩) key now
      = .error (.KeyError "lab_instance") := by
  constructor
  · rfl
  · simp [decode_auth_token, jwtDecode, getItem, h1, h2, not_le.mpr h3,
      Bind.bind, Except.bind]

/-- C6 witness: the string `not-a-token` and a signed payload holding only
`id` and a future `exp`, decoded at clock 0. -/
theorem c6_malformed_and_missing_field_amended_witness :
    decode_auth_token (.malformed "not-a-token") "k" 0 = .error .DecodeError
    ∧ decode_auth_token (.token ⟨Json.obj [("id", .num 1), ("exp", .num 99)], "k"⟩) "k" 0
      = .error (.KeyError "lab_instance") :=
  c6_malformed_and_missing_field_amended "not-a-token" [("id", .num 1), ("exp", .num 99)]
    "k" 0 99 rfl rfl (by decide)

/-- C7: whenever decode fails, verify fails with exactly the same error —
no catching, wrapping or translation — and produces no
boolean-claims pair. -/
theorem c7_verify_propagates_decode_errors (t : TokenInput) (n key : String) (now : Int)
    (err : PyErr) (h : decode_auth_token t key now = .error err) :
    verify_auth_token t n key now = .error err := by
  simp [verify_auth_token, h, Bind.bind, Except.bind]

/-- C7 witness: the malformed input propagates its `DecodeError` through
verify unchanged. -/
theorem c7_verify_propagates_decode_errors_witness :
    verify_auth_token (.malformed "not-a-token") "vm-1" "k" 0 = .error .DecodeError :=
  c7_verify_propagates_decode_errors (.malformed "not-a-token") "vm-1" "k" 0 .DecodeError rfl

/-- C8: every generated token serializes to three dot-separated,
dot-free segments (header, payload, signature), and its payload is an
object carrying `id` (the subject), numeric `exp` (the resolved expiry in
Unix seconds) and `lab_instance` (an object with the four claim keys). -/
theorem c8_token_structure (u : Identifier) (p : LabInstanceTokenParams) (key : String)
    (ei : Int) (ea : Option Int) (now : Int) :
    (∃ h pl s, (generate_auth_token u p key ei ea now).serialize = h ++ "." ++ pl ++ "." ++ s
      ∧ '.' ∉ h.data ∧ '.' ∉ pl.data ∧ '.' ∉ s.data)
    ∧ ∃ kvs likvs,
      (generate_auth_token u p key ei ea now).payload = Json.obj kvs
      ∧ List.lookup "id" kvs = some u.toJson
      ∧ List.lookup "exp" kvs = some (Json.num (resolvedExpiry now ei ea))
      ∧ List.lookup "lab_instance" kvs = some (Json.obj likvs)
      ∧ List.lookup "lab_id" likvs = some p.lab_id.toJson
      ∧ List.lookup "lab_instance_id" likvs = some p.lab_instance_id.toJson
      ∧ List.lookup "namespace_name" likvs = some (Json.str p.namespace_name)
      ∧ List.lookup "allowed_vmi_names" likvs
          = some (Json.arr (p.allowed_vmi_names.map Json.str)) := by
  constructor
  · exact ⟨_, _, _, rfl, mkB64_no_dot _, mkB64_no_dot _, mkB64_no_dot _⟩
  · refine ⟨[("id", u.toJson),
             ("exp", Json.num (resolvedExpiry now ei ea)),
             ("lab_instance", Json.obj
               [("lab_id", p.lab_id.toJson),
                ("lab_instance_id", p.lab_instance_id.toJson),
                ("namespace_name", Json.str p.namespace_name),
                ("allowed_vmi_names", Json.arr (p.allowed_vmi_names.map Json.str))])],
            [("lab_id", p.lab_id.toJson),
             ("lab_instance_id", p.lab_instance_id.toJson),
             ("namespace_name", Json.str p.namespace_name),
             ("allowed_vmi_names", Json.arr (p.allowed_vmi_names.map Json.str))],
            rfl, ?_, ?_, ?_, ?_, ?_, ?_, ?_⟩ <;> simp [List.lookup]

/-- C9: each operation is a function of its explicit arguments plus the
clock reading `now` (the embedding's rendering of `time.time()`, the
source's only ambient input): two invocations with identical arguments at
the same instant produce identical results. -/
theorem c9_deterministic (u u' : Identifier) (p p' : LabInstanceTokenParams)
    (k k' : String) (ei ei' : Int) (ea ea' : Option Int) (now now' : Int)
    (t t' : TokenInput) (n n' : String)
    (hu : u = u') (hp : p = p') (hk : k = k') (hei : ei = ei') (hea : ea = ea')
    (hnow : now = now') (ht : t = t') (hn : n = n') :
    generate_auth_token u p k ei ea now = generate_auth_token u' p' k' ei' ea' now'
    ∧ decode_auth_token t k now = decode_auth_token t' k' now'
    ∧ verify_auth_token t n k now = verify_auth_token t' n' k' now' := by
  subst hu hp hk hei hea hnow ht hn
  exact ⟨rfl, rfl, rfl⟩

/-- C9 witness: the three operations at concrete, equal argument pairs. -/
theorem c9_deterministic_witness :
    generate_auth_token (.str "u1") exampleParams "k" 600 none 0
      = generate_auth_token (.str "u1") exampleParams "k" 600 none 0
    ∧ decode_auth_token (.malformed "x") "k" 0 = decode_auth_token (.malformed "x") "k" 0
    ∧ verify_auth_token (.malformed "x") "vm-1" "k" 0
      = verify_auth_token (.malformed "x") "vm-1" "k" 0 :=
  c9_deterministic (.str "u1") (.str "u1") exampleParams exampleParams "k" "k" 600 600
    none none 0 0 (.malformed "x") (.malformed "x") "vm-1" "vm-1"
    rfl rfl rfl rfl rfl rfl rfl rfl

/-- C10: a supplied absolute expiry of 0 is falsy under Python's `if not
expires_at`, so it is treated as absent and the bound expiry instant is
`now + expires_in`. -/
theorem c10_zero_expires_at_falls_back_to_ttl (u : Identifier) (p : LabInstanceTokenParams)
    (key : String) (ei : Int) (now : Int) :
    (generate_auth_token u p key ei (some 0) now).expClaim = some (now + ei) := by
  simp [expClaim_generate, resolvedExpiry]
